import Mathlib

/-!
Verification of the arrow-zerobus-sdk-wrapper Result Model, Batch
Partitioner, Configuration Validator and dry-run send path.

The wrapper's core (the Rust `TransmissionResult`, `WrapperConfiguration`
and `ZerobusWrapper` types exposed to Python via PyO3) is exercised by the
repository's Python tests; the definitions below embed that core, modelled
from the specification, and the theorems settle the specification's claims
against this embedding.
-/

namespace Zerobus

/-- Modelled from the spec: string comparison helper used for the leading
classification tag of row-level errors and for the endpoint scheme check
(the Rust sources are not in the repository snapshot). `strLeads pat s`
holds when `s` starts with the literal `pat`. -/
def strLeads (pat s : String) : Bool :=
  decide (s.data.take pat.data.length = pat.data)

/-- Modelled from the spec (§3 Data Model): `TransmissionResult` is an
immutable snapshot of one transmission attempt sequence. The constructor
mirrors the PyO3 class constructor, which stores whatever field values it
is given (totality is claim C10). -/
structure TransmissionResult where
  success : Bool
  message : Option String := none
  failed_rows : Option (List (Nat × String)) := none
  successful_rows : Option (List Nat) := none
  total_rows : Nat := 0
  successful_count : Nat := 0
  failed_count : Nat := 0
deriving DecidableEq, Repr

/-- The failed-row list carried by a result, with the Python `None`
normalised to the empty list. -/
def failedRowsList (r : TransmissionResult) : List (Nat × String) :=
  r.failed_rows.getD []

/-- The successful-row index list carried by a result, with the Python
`None` normalised to the empty list. -/
def successfulRowsList (r : TransmissionResult) : List Nat :=
  r.successful_rows.getD []

/-- Modelled from the spec (§4.4): project the failed row indices,
preserving original order. -/
def get_failed_row_indices (r : TransmissionResult) : List Nat :=
  (failedRowsList r).map Prod.fst

/-- Modelled from the spec (§4.4): project the successful row indices,
preserving original order. -/
def get_successful_row_indices (r : TransmissionResult) : List Nat :=
  successfulRowsList r

/-- Modelled from the spec (§4.4): true iff some rows succeeded and some
rows failed. -/
def is_partial_success (r : TransmissionResult) : Bool :=
  decide (0 < r.successful_count) && decide (0 < r.failed_count)

/-- Modelled from the spec (§4.4): true iff `failed_count > 0`. -/
def has_failed_rows (r : TransmissionResult) : Bool :=
  decide (0 < r.failed_count)

/-- Modelled from the spec (§4.4): true iff `successful_count > 0`. -/
def has_successful_rows (r : TransmissionResult) : Bool :=
  decide (0 < r.successful_count)

/-- Modelled from the spec (§3 Error kinds): the closed set of
classification tags that may lead a row-level error string. -/
def errorKinds : List String :=
  ["ConfigurationError", "AuthenticationError", "ConnectionError",
   "ConversionError", "TransmissionError", "RetryExhausted",
   "TokenRefreshError"]

/-- Modelled from the spec (§4.4): parse the leading `"<Kind>:"` tag of a
row-level error message; messages without a recognized tag fall under the
catch-all `"unknown"` key. -/
def classifyTag (msg : String) : String :=
  match errorKinds.find? (fun k => strLeads (k ++ ":") msg) with
  | some k => k
  | none => "unknown"

/-- Modelled from the spec (§4.4): the failed row indices whose error
message carries the given classification tag, in original order. -/
def get_failed_row_indices_by_error_type
    (r : TransmissionResult) (kind : String) : List Nat :=
  ((failedRowsList r).filter (fun fr => classifyTag fr.2 == kind)).map Prod.fst

/-- First-occurrence deduplication of a list of tags, keeping the order in
which each tag first appears; `seen` accumulates the tags already kept. -/
def dedupFirstAux : List String → List String → List String
  | _, [] => []
  | seen, t :: ts =>
      if t ∈ seen then dedupFirstAux seen ts
      else t :: dedupFirstAux (t :: seen) ts

/-- Modelled from the spec (§4.4): mapping from classification tag to the
ordered list of failed row indices carrying that tag, keys in order of
first appearance; empty when there are no failed rows. -/
def group_errors_by_type (r : TransmissionResult) : List (String × List Nat) :=
  let frs := failedRowsList r
  (dedupFirstAux [] (frs.map (fun fr => classifyTag fr.2))).map
    (fun t => (t, (frs.filter (fun fr => classifyTag fr.2 == t)).map Prod.fst))

/-- Modelled from the spec (§9, test evidence): the display form of a
classification kind used when formatting row errors, e.g.
`ConversionError` renders as `Conversion error`. -/
def kindDisplay : String → String
  | "ConfigurationError" => "Configuration error"
  | "AuthenticationError" => "Authentication error"
  | "ConnectionError" => "Connection error"
  | "ConversionError" => "Conversion error"
  | "TransmissionError" => "Transmission error"
  | "RetryExhausted" => "Retry exhausted"
  | "TokenRefreshError" => "Token refresh error"
  | k => k

/-- Modelled from the spec (§4.4): the full formatted message of one failed
row — the stored `"<Kind>: <message>"` string with the kind rendered in
display form; messages without a recognized tag pass through unchanged. -/
def formatRowError (msg : String) : String :=
  match errorKinds.find? (fun k => strLeads (k ++ ":") msg) with
  | some k => kindDisplay k ++ msg.drop k.length
  | none => msg

/-- Modelled from the spec (§4.4): ordered list of the full formatted
message of every failed row, in original row order. -/
def get_error_messages (r : TransmissionResult) : List String :=
  (failedRowsList r).map (fun fr => formatRowError fr.2)

/-- Modelled from the spec (§4.4): the record returned by
`get_error_statistics`; rates are exact rationals in this embedding. -/
structure ErrorStatistics where
  total_rows : Nat
  successful_count : Nat
  failed_count : Nat
  success_rate : ℚ
  failure_rate : ℚ
  error_type_counts : List (String × Nat)
deriving DecidableEq, Repr

/-- Modelled from the spec (§4.4): summary statistics of a result. When
`total_rows = 0` the rates take the defined defaults (success 1, failure 0)
instead of dividing by zero. -/
def get_error_statistics (r : TransmissionResult) : ErrorStatistics :=
  { total_rows := r.total_rows
    successful_count := r.successful_count
    failed_count := r.failed_count
    success_rate :=
      if r.total_rows = 0 then 1 else (r.successful_count : ℚ) / r.total_rows
    failure_rate :=
      if r.total_rows = 0 then 0 else (r.failed_count : ℚ) / r.total_rows
    error_type_counts :=
      (group_errors_by_type r).map (fun p => (p.1, p.2.length)) }

/-- Modelled from the spec (§3, §6): a batch is an ordered columnar
container — a row count and a list of columns, each column a (name, type,
cell data) triple; cells are represented as strings in this embedding. -/
structure Batch where
  num_rows : Nat
  columns : List (String × String × List String)
deriving DecidableEq, Repr

/-- Well-formedness of a batch: every column holds one cell per row. -/
def Batch.wf (b : Batch) : Prop :=
  ∀ c ∈ b.columns, c.2.2.length = b.num_rows

/-- The schema of a batch: its column names and types, in column order. -/
def Batch.schema (b : Batch) : List (String × String) :=
  b.columns.map (fun c => (c.1, c.2.1))

/-- Row `j` of a batch: the `j`-th cell of each column, in column order. -/
def Batch.row (b : Batch) (j : Nat) : List String :=
  b.columns.map (fun c => c.2.2.getD j "")

/-- Modelled from the spec (§4.5 Batch Partitioner): given a row-index
list, return a new batch containing exactly those rows, preserving column
order, names and types; return no batch when the index list is empty. -/
def extractRows (b : Batch) (idxs : List Nat) : Option Batch :=
  if idxs.isEmpty then none
  else
    some
      { num_rows := idxs.length
        columns :=
          b.columns.map
            (fun c => (c.1, c.2.1, idxs.map (fun i => c.2.2.getD i ""))) }

/-- Modelled from the spec (§4.5): extract the failed rows of a batch. -/
def extract_failed_batch (r : TransmissionResult) (b : Batch) : Option Batch :=
  extractRows b (get_failed_row_indices r)

/-- Modelled from the spec (§4.5): extract the successful rows of a
batch. -/
def extract_successful_batch (r : TransmissionResult) (b : Batch) :
    Option Batch :=
  extractRows b (get_successful_row_indices r)

/-- Modelled from the spec (§4.3 Evaluating/Done): the engine interprets a
per-row outcome list (`none` = accepted, `some msg` = rejected with a
tagged message) into a `TransmissionResult`. -/
def buildResult (outcomes : List (Option String)) : TransmissionResult :=
  let indexed := outcomes.enum
  let succ := (indexed.filter (fun p => p.2.isNone)).map Prod.fst
  let fails := indexed.filterMap (fun p => p.2.map (fun m => (p.1, m)))
  { success := true
    message := some "Transmission complete"
    failed_rows := if fails.isEmpty then none else some fails
    successful_rows := if succ.isEmpty then none else some succ
    total_rows := outcomes.length
    successful_count := succ.length
    failed_count := fails.length }

/-- Modelled from the spec (§3 Error kinds): the closed error taxonomy. -/
inductive ZerobusError where
  | configurationError (msg : String)
  | authenticationError (msg : String)
  | connectionError (msg : String)
  | conversionError (msg : String)
  | transmissionError (msg : String)
  | retryExhausted (msg : String)
  | tokenRefreshError (msg : String)
deriving DecidableEq, Repr

/-- Modelled from the spec (§3, §6): the wrapper configuration surface. -/
structure WrapperConfiguration where
  endpoint : String
  table_name : String
  client_id : Option String := none
  client_secret : Option String := none
  unity_catalog_url : Option String := none
  debug_enabled : Bool := false
  debug_output_dir : Option String := none
  zerobus_writer_disabled : Bool := false
deriving DecidableEq, Repr

/-- Modelled from the spec (§4.1 Configuration Validator): check the rules
in order and fail with a `ConfigurationError` on the first violated rule —
endpoint scheme is `https`; table identifier non-empty; `writer_disabled`
implies `debug_enabled`; `debug_enabled` implies a debug output location is
present. -/
def WrapperConfiguration.validate (cfg : WrapperConfiguration) :
    Except ZerobusError Unit :=
  if !(strLeads "https://" cfg.endpoint) then
    Except.error (ZerobusError.configurationError "endpoint scheme must be https")
  else if cfg.table_name.isEmpty then
    Except.error (ZerobusError.configurationError "table_name must not be empty")
  else if cfg.zerobus_writer_disabled && !cfg.debug_enabled then
    Except.error
      (ZerobusError.configurationError
        "zerobus_writer_disabled requires debug_enabled")
  else if cfg.debug_enabled && cfg.debug_output_dir.isNone then
    Except.error
      (ZerobusError.configurationError
        "debug_enabled requires debug_output_dir")
  else Except.ok ()

/-- Modelled from the spec (§5, §6): the externally observable effects of
one `send` call, in order of occurrence. -/
inductive Effect where
  | acquireCredential
  | transportSend
  | debugCapture
deriving DecidableEq, Repr

/-- Modelled from the spec (§4.3, §6): one `send_batch` call. `creds` is
the optionally supplied client credential pair and `transport` the external
transport collaborator returning a per-row outcome list. When
`zerobus_writer_disabled` is set, credential acquisition and transport are
skipped entirely: debug capture is the only effect and the call returns a
normal all-successful `TransmissionResult` with `success = true`.
Otherwise the engine acquires a credential (failing with
`AuthenticationError` when none can be obtained), optionally captures
debug output, and interprets the transport's response via `buildResult`. -/
def send_batch (cfg : WrapperConfiguration) (creds : Option String)
    (transport : String → Batch → Except ZerobusError (List (Option String)))
    (b : Batch) : Except ZerobusError (TransmissionResult × List Effect) :=
  if cfg.zerobus_writer_disabled then
    Except.ok
      ({ success := true
         message := some "Writer disabled - batch captured to debug output"
         failed_rows := none
         successful_rows :=
           if b.num_rows = 0 then none else some (List.range b.num_rows)
         total_rows := b.num_rows
         successful_count := b.num_rows
         failed_count := 0 }, [Effect.debugCapture])
  else
    match creds with
    | none => Except.error (ZerobusError.authenticationError "no credentials provided")
    | some tok =>
        match transport tok b with
        | Except.error e => Except.error e
        | Except.ok outcomes =>
            Except.ok
              (buildResult outcomes,
                if cfg.debug_enabled then
                  [Effect.acquireCredential, Effect.transportSend,
                   Effect.debugCapture]
                else [Effect.acquireCredential, Effect.transportSend])

/-- A sample result with five tagged failed rows, matching the grouping
example of the specification (§8). -/
def demoFailedResult : TransmissionResult :=
  { success := true
    failed_rows := some
      [(0, "ConversionError: a"), (1, "TransmissionError: b"),
       (2, "ConversionError: c"), (3, "ConnectionError: d"),
       (4, "ConversionError: e")]
    successful_rows := some [5, 6, 7, 8, 9]
    total_rows := 10
    successful_count := 5
    failed_count := 5 }

/-- A sample 10-row, two-column batch, matching the quarantine example of
the specification (§8) and the repository's quarantine tests. -/
def demoBatch : Batch :=
  { num_rows := 10
    columns :=
      [("id", "int64", ["1", "2", "3", "4", "5", "6", "7", "8", "9", "10"]),
       ("name", "string",
        ["Alice", "Bob", "Charlie", "David", "Eve", "Frank", "Grace",
         "Henry", "Ivy", "Jack"])] }

/-- A sample result over `demoBatch` whose failed rows are 1, 3 and 7. -/
def demoQuarantineResult : TransmissionResult :=
  { success := true
    failed_rows := some
      [(1, "ConversionError: bad row 1"), (3, "TransmissionError: bad row 3"),
       (7, "ConversionError: bad row 7")]
    successful_rows := some [0, 2, 4, 5, 6, 8, 9]
    total_rows := 10
    successful_count := 7
    failed_count := 3 }

/-- A sample dry-run configuration: writer disabled, debug enabled with an
output directory, and no credentials supplied. -/
def demoDryRunConfig : WrapperConfiguration :=
  { endpoint := "https://test.cloud.databricks.com"
    table_name := "test_table"
    debug_enabled := true
    debug_output_dir := some "./test_debug"
    zerobus_writer_disabled := true }

/-- A sample result with no failed rows. -/
def demoAllSuccessResult : TransmissionResult :=
  { success := true
    successful_rows := some [0, 1, 2]
    total_rows := 3
    successful_count := 3 }

/-- Looking a key up in an association list whose entries pair each key
with a function of that key. -/
theorem lookup_map_self (f : String → List Nat) (l : List String) (t : String) :
    List.lookup t (l.map (fun a => (a, f a))) =
      if t ∈ l then some (f t) else none := by
  induction l with
  | nil => simp
  | cons a l ih =>
    by_cases h : t = a
    · subst h
      simp [List.lookup]
    · simp only [List.map_cons, List.lookup, ih]
      rw [show (t == a) = false from beq_eq_false_iff_ne.mpr h]
      simp [h]

/-- Membership in the first-occurrence deduplication: a tag is kept iff it
occurs in the list and was not already seen. -/
theorem mem_dedupFirstAux (t : String) :
    ∀ (l seen : List String), t ∈ dedupFirstAux seen l ↔ t ∈ l ∧ t ∉ seen
  | [], seen => by simp [dedupFirstAux]
  | a :: l, seen => by
    by_cases ha : a ∈ seen
    · rw [show dedupFirstAux seen (a :: l) = dedupFirstAux seen l from by
        simp [dedupFirstAux, ha]]
      rw [mem_dedupFirstAux t l seen]
      constructor
      · rintro ⟨h1, h2⟩
        exact ⟨List.mem_cons_of_mem _ h1, h2⟩
      · rintro ⟨h1, h2⟩
        rcases List.mem_cons.mp h1 with rfl | h
        · exact absurd ha h2
        · exact ⟨h, h2⟩
    · rw [show dedupFirstAux seen (a :: l) = a :: dedupFirstAux (a :: seen) l
        from by simp [dedupFirstAux, ha]]
      constructor
      · intro h
        rcases List.mem_cons.mp h with rfl | h
        · exact ⟨List.mem_cons_self _ _, ha⟩
        · rcases (mem_dedupFirstAux t l (a :: seen)).mp h with ⟨h1, h2⟩
          exact ⟨List.mem_cons_of_mem _ h1,
            fun hs => h2 (List.mem_cons_of_mem _ hs)⟩
      · rintro ⟨h1, h2⟩
        by_cases hta : t = a
        · subst hta
          exact List.mem_cons_self _ _
        · rcases List.mem_cons.mp h1 with h | h
          · exact absurd h hta
          · exact List.mem_cons_of_mem _
              ((mem_dedupFirstAux t l (a :: seen)).mpr
                ⟨h, fun hs => (List.mem_cons.mp hs).elim hta h2⟩)

/-- A sample per-row outcome list: rows 0 and 2 rejected, row 1
accepted. -/
def demoOutcomes : List (Option String) :=
  [some "ConversionError: bad field", none, some "TransmissionError: timeout"]

/-- Splitting an enumerated outcome list into accepted and rejected rows
preserves the total row count. -/
theorem enumFrom_count_split (n : Nat) (l : List (Option String)) :
    (((l.enumFrom n).filter (fun p => p.2.isNone)).map Prod.fst).length +
      ((l.enumFrom n).filterMap
        (fun p => p.2.map (fun m => (p.1, m)))).length = l.length := by
  induction l generalizing n with
  | nil => simp
  | cons o l ih =>
    have h := ih (n + 1)
    cases o <;> simp [List.enumFrom] at h ⊢ <;> omega

/-- C1: every `TransmissionResult` produced by the engine's row-outcome
interpretation satisfies `total_rows = successful_count + failed_count`,
and whenever its failed (resp. successful) row list is non-empty that
list's length equals `failed_count` (resp. `successful_count`). -/
theorem c1_result_consistency (outcomes : List (Option String)) :
    (buildResult outcomes).total_rows =
      (buildResult outcomes).successful_count +
        (buildResult outcomes).failed_count ∧
    (failedRowsList (buildResult outcomes) ≠ [] →
      (failedRowsList (buildResult outcomes)).length =
        (buildResult outcomes).failed_count) ∧
    (successfulRowsList (buildResult outcomes) ≠ [] →
      (successfulRowsList (buildResult outcomes)).length =
        (buildResult outcomes).successful_count) := by
  refine ⟨?_, fun _ => ?_, fun _ => ?_⟩
  · have h := enumFrom_count_split 0 outcomes
    rw [show List.enumFrom 0 outcomes = outcomes.enum from rfl] at h
    simp only [buildResult]
    simp at h ⊢
    omega
  · simp only [failedRowsList, buildResult]
    by_cases h :
        (outcomes.enum.filterMap
          (fun p => p.2.map (fun m => (p.1, m)))).isEmpty
    · rw [if_pos h]
      simp [List.isEmpty_iff.mp h]
    · rw [if_neg h]
      rfl
  · simp only [successfulRowsList, buildResult]
    by_cases h :
        (((outcomes.enum.filter (fun p => p.2.isNone)).map Prod.fst)).isEmpty
    · rw [if_pos h]
      simp [List.isEmpty_iff.mp h]
    · rw [if_neg h]
      rfl

/-- C1 witness: the consistency invariants evaluated on a sample outcome
list with both accepted and rejected rows. -/
theorem c1_result_consistency_witness :
    (buildResult demoOutcomes).total_rows =
      (buildResult demoOutcomes).successful_count +
        (buildResult demoOutcomes).failed_count ∧
    (failedRowsList (buildResult demoOutcomes)).length =
      (buildResult demoOutcomes).failed_count ∧
    (successfulRowsList (buildResult demoOutcomes)).length =
      (buildResult demoOutcomes).successful_count :=
  ⟨(c1_result_consistency demoOutcomes).1,
   (c1_result_consistency demoOutcomes).2.1 (by decide),
   (c1_result_consistency demoOutcomes).2.2 (by decide)⟩

/-- A sample result for an empty batch: zero rows, no row lists. -/
def demoEmptyResult : TransmissionResult :=
  { success := true }

/-- A sample configuration whose endpoint is not an `https` URL. -/
def demoBadEndpointConfig : WrapperConfiguration :=
  { endpoint := "invalid-endpoint"
    table_name := "test_table" }

/-- A sample configuration with the writer disabled but debug capture not
enabled. -/
def demoDisabledNoDebugConfig : WrapperConfiguration :=
  { endpoint := "https://test.cloud.databricks.com"
    table_name := "test_table"
    debug_enabled := false
    zerobus_writer_disabled := true }

/-- A sample transport collaborator that accepts every row. -/
def demoTransport :
    String → Batch → Except ZerobusError (List (Option String)) :=
  fun _ b => Except.ok (List.replicate b.num_rows none)

/-- C4: for every `TransmissionResult`, `get_error_statistics` reports the
stored counts, rates `successful_count/total_rows` and
`failed_count/total_rows` (exact rationals in this embedding), and
`error_type_counts` equal to the per-kind counts of
`group_errors_by_type`; the rates sum to 1 whenever `total_rows > 0` and
the result satisfies the data-model invariant
`total_rows = successful_count + failed_count`; and when `total_rows = 0`
the rates take the defined defaults (success 1, failure 0) instead of
dividing by zero. -/
theorem c4_error_statistics (r : TransmissionResult) :
    (get_error_statistics r).total_rows = r.total_rows ∧
    (get_error_statistics r).successful_count = r.successful_count ∧
    (get_error_statistics r).failed_count = r.failed_count ∧
    (r.total_rows ≠ 0 →
      (get_error_statistics r).success_rate =
        (r.successful_count : ℚ) / r.total_rows ∧
      (get_error_statistics r).failure_rate =
        (r.failed_count : ℚ) / r.total_rows) ∧
    (get_error_statistics r).error_type_counts =
      (group_errors_by_type r).map (fun p => (p.1, p.2.length)) ∧
    (r.total_rows = 0 →
      (get_error_statistics r).success_rate = 1 ∧
      (get_error_statistics r).failure_rate = 0) ∧
    (0 < r.total_rows → r.total_rows = r.successful_count + r.failed_count →
      (get_error_statistics r).success_rate +
        (get_error_statistics r).failure_rate = 1) := by
  refine ⟨rfl, rfl, rfl, fun h => ?_, rfl, fun h => ?_, fun h1 h2 => ?_⟩
  · constructor <;> simp [get_error_statistics, h]
  · constructor <;> simp [get_error_statistics, h]
  · have hne : r.total_rows ≠ 0 := Nat.pos_iff_ne_zero.mp h1
    simp only [get_error_statistics, if_neg hne]
    rw [div_add_div_same,
      show ((r.successful_count : ℚ) + (r.failed_count : ℚ)) =
        (r.total_rows : ℚ) from by rw [h2]; push_cast; ring]
    exact div_self (Nat.cast_ne_zero.mpr hne)

/-- C4 witness: the statistics contract evaluated on the sample failed
result (rates one half each, summing to 1) and the zero-row defaults on an
empty result. -/
theorem c4_error_statistics_witness :
    ((get_error_statistics demoFailedResult).success_rate =
      (demoFailedResult.successful_count : ℚ) / demoFailedResult.total_rows ∧
     (get_error_statistics demoFailedResult).failure_rate =
      (demoFailedResult.failed_count : ℚ) / demoFailedResult.total_rows) ∧
    (get_error_statistics demoFailedResult).success_rate +
      (get_error_statistics demoFailedResult).failure_rate = 1 ∧
    (get_error_statistics demoEmptyResult).success_rate = 1 ∧
    (get_error_statistics demoEmptyResult).failure_rate = 0 :=
  ⟨(c4_error_statistics demoFailedResult).2.2.2.1 (by decide),
   (c4_error_statistics demoFailedResult).2.2.2.2.2.2 (by decide) (by decide),
   ((c4_error_statistics demoEmptyResult).2.2.2.2.2.1 rfl).1,
   ((c4_error_statistics demoEmptyResult).2.2.2.2.2.1 rfl).2⟩

/-- C5: configuration validation checks its rules in a fixed order and
fails with a `ConfigurationError` on the first violated rule — endpoint
scheme `https`, non-empty table identifier, `writer_disabled` implies
`debug_enabled`, `debug_enabled` implies a debug output location — returns
ok when every rule holds, and every validation failure is a
`ConfigurationError`. -/
theorem c5_validate_first_violation (cfg : WrapperConfiguration) :
    (strLeads "https://" cfg.endpoint = false →
      cfg.validate = Except.error
        (ZerobusError.configurationError "endpoint scheme must be https")) ∧
    (strLeads "https://" cfg.endpoint = true → cfg.table_name.isEmpty = true →
      cfg.validate = Except.error
        (ZerobusError.configurationError "table_name must not be empty")) ∧
    (strLeads "https://" cfg.endpoint = true →
      cfg.table_name.isEmpty = false →
      cfg.zerobus_writer_disabled = true → cfg.debug_enabled = false →
      cfg.validate = Except.error
        (ZerobusError.configurationError
          "zerobus_writer_disabled requires debug_enabled")) ∧
    (strLeads "https://" cfg.endpoint = true →
      cfg.table_name.isEmpty = false →
      cfg.debug_enabled = true → cfg.debug_output_dir = none →
      cfg.validate = Except.error
        (ZerobusError.configurationError
          "debug_enabled requires debug_output_dir")) ∧
    (strLeads "https://" cfg.endpoint = true →
      cfg.table_name.isEmpty = false →
      (cfg.zerobus_writer_disabled = true → cfg.debug_enabled = true) →
      (cfg.debug_enabled = true → cfg.debug_output_dir ≠ none) →
      cfg.validate = Except.ok ()) ∧
    (∀ e, cfg.validate = Except.error e →
      ∃ m, e = ZerobusError.configurationError m) := by
  obtain ⟨ep, tn, ci, cs, uc, de, dod, wd⟩ := cfg
  refine ⟨?_, ?_, ?_, ?_, ?_, ?_⟩
  · intro h1
    simp [WrapperConfiguration.validate, h1]
  · intro h1 h2
    simp [WrapperConfiguration.validate, h1, h2]
  · intro h1 h2 h3 h4
    subst h3
    subst h4
    simp [WrapperConfiguration.validate, h1, h2]
  · intro h1 h2 h3 h4
    subst h3
    subst h4
    simp [WrapperConfiguration.validate, h1, h2]
  · intro h1 h2 h3 h4
    cases wd with
    | false =>
      cases de with
      | false => simp [WrapperConfiguration.validate, h1, h2]
      | true =>
        cases dod with
        | none => exact absurd rfl (h4 rfl)
        | some d => simp [WrapperConfiguration.validate, h1, h2]
    | true =>
      cases de with
      | false => exact Bool.noConfusion (h3 rfl)
      | true =>
        cases dod with
        | none => exact absurd rfl (h4 rfl)
        | some d => simp [WrapperConfiguration.validate, h1, h2]
  · intro e he
    simp only [WrapperConfiguration.validate] at he
    split_ifs at he <;>
      (injection he with h
       exact ⟨_, h.symm⟩)

/-- C5 witness: a non-https endpoint fails validation; writer disabled
without debug enabled fails validation with a `ConfigurationError`; the
dry-run configuration with debug enabled and an output location passes. -/
theorem c5_validate_first_violation_witness :
    demoBadEndpointConfig.validate = Except.error
      (ZerobusError.configurationError "endpoint scheme must be https") ∧
    demoDisabledNoDebugConfig.validate = Except.error
      (ZerobusError.configurationError
        "zerobus_writer_disabled requires debug_enabled") ∧
    demoDryRunConfig.validate = Except.ok () :=
  ⟨(c5_validate_first_violation demoBadEndpointConfig).1 (by decide),
   (c5_validate_first_violation demoDisabledNoDebugConfig).2.2.1
     (by decide) (by decide) rfl rfl,
   (c5_validate_first_violation demoDryRunConfig).2.2.2.2.1
     (by decide) (by decide) (fun _ => rfl) (fun _ => by decide)⟩

/-- C6: when `zerobus_writer_disabled` is set, `send_batch` on any batch
succeeds with no credentials supplied, producing a `TransmissionResult`
with `success = true` covering every row of the batch, and debug capture
is the only effect of the call. -/
theorem c6_writer_disabled_dry_run (cfg : WrapperConfiguration)
    (transport : String → Batch → Except ZerobusError (List (Option String)))
    (b : Batch) (h : cfg.zerobus_writer_disabled = true) :
    ∃ r : TransmissionResult,
      send_batch cfg none transport b =
        Except.ok (r, [Effect.debugCapture]) ∧
      r.success = true ∧ r.total_rows = b.num_rows ∧
      r.successful_count = b.num_rows ∧ r.failed_count = 0 := by
  refine ⟨{ success := true
            message := some "Writer disabled - batch captured to debug output"
            failed_rows := none
            successful_rows :=
              if b.num_rows = 0 then none else some (List.range b.num_rows)
            total_rows := b.num_rows
            successful_count := b.num_rows
            failed_count := 0 }, ?_, rfl, rfl, rfl, rfl⟩
  simp [send_batch, h]

/-- C6 witness: the dry-run send evaluated on the sample configuration and
batch with no credentials. -/
theorem c6_writer_disabled_dry_run_witness :
    ∃ r : TransmissionResult,
      send_batch demoDryRunConfig none demoTransport demoBatch =
        Except.ok (r, [Effect.debugCapture]) ∧
      r.success = true ∧ r.total_rows = demoBatch.num_rows ∧
      r.successful_count = demoBatch.num_rows ∧ r.failed_count = 0 :=
  c6_writer_disabled_dry_run demoDryRunConfig demoTransport demoBatch rfl

/-- The batch partitioner's contract: extraction returns no batch exactly
on the empty index list, and otherwise a batch with one row per index,
the schema preserved, whose `j`-th row is the original row at the `j`-th
index. -/
theorem extractRows_spec (b : Batch) (idxs : List Nat) :
    (idxs = [] → extractRows b idxs = none) ∧
    (idxs ≠ [] →
      ∃ b', extractRows b idxs = some b' ∧
        b'.num_rows = idxs.length ∧
        b'.schema = b.schema ∧
        ∀ j, (hj : j < idxs.length) →
          b'.row j = b.row (idxs.get ⟨j, hj⟩)) := by
  constructor
  · intro h
    simp [extractRows, h]
  · intro h
    have hne : idxs.isEmpty = false := by
      simp [List.isEmpty_iff, h]
    refine ⟨{ num_rows := idxs.length
              columns :=
                b.columns.map
                  (fun c => (c.1, c.2.1, idxs.map (fun i => c.2.2.getD i ""))) },
      ?_, rfl, ?_, ?_⟩
    · simp [extractRows, hne]
    · simp [Batch.schema, List.map_map]
    · intro j hj
      simp only [Batch.row, List.map_map]
      refine List.map_congr_left (fun c _ => ?_)
      simp only [Function.comp_apply]
      rw [List.getD_eq_getElem?_getD, List.getElem?_map,
        List.getElem?_eq_getElem hj]
      simp

/-- C2: for every batch and `TransmissionResult` whose failed (resp.
successful) row indices are strictly ascending and within bounds,
`extract_failed_batch` (resp. `extract_successful_batch`) returns no batch
exactly when the index list is empty, and otherwise a batch containing
exactly the rows at those indices in original order with the schema
(column order, names and types) preserved. -/
theorem c2_extract_batches (b : Batch) (r : TransmissionResult)
    (_hasc : List.Pairwise (· < ·) (get_failed_row_indices r))
    (_hascs : List.Pairwise (· < ·) (get_successful_row_indices r))
    (_hbf : ∀ i ∈ get_failed_row_indices r, i < b.num_rows)
    (_hbs : ∀ i ∈ get_successful_row_indices r, i < b.num_rows) :
    ((get_failed_row_indices r = [] → extract_failed_batch r b = none) ∧
     (get_failed_row_indices r ≠ [] →
       ∃ b', extract_failed_batch r b = some b' ∧
         b'.num_rows = (get_failed_row_indices r).length ∧
         b'.schema = b.schema ∧
         ∀ j, (hj : j < (get_failed_row_indices r).length) →
           b'.row j = b.row ((get_failed_row_indices r).get ⟨j, hj⟩))) ∧
    ((get_successful_row_indices r = [] →
       extract_successful_batch r b = none) ∧
     (get_successful_row_indices r ≠ [] →
       ∃ b', extract_successful_batch r b = some b' ∧
         b'.num_rows = (get_successful_row_indices r).length ∧
         b'.schema = b.schema ∧
         ∀ j, (hj : j < (get_successful_row_indices r).length) →
           b'.row j = b.row ((get_successful_row_indices r).get ⟨j, hj⟩))) :=
  ⟨extractRows_spec b (get_failed_row_indices r),
   extractRows_spec b (get_successful_row_indices r)⟩

/-- C2 witness: extraction evaluated on the sample ten-row batch with
failed rows 1, 3 and 7 — three extracted rows and row 0 of the extracted
batch equal to original row 1 — and the emptiness rule on an
all-successful result. -/
theorem c2_extract_batches_witness :
    (∃ b', extract_failed_batch demoQuarantineResult demoBatch = some b' ∧
      b'.num_rows = (get_failed_row_indices demoQuarantineResult).length ∧
      b'.schema = demoBatch.schema ∧
      ∀ j, (hj : j < (get_failed_row_indices demoQuarantineResult).length) →
        b'.row j = demoBatch.row
          ((get_failed_row_indices demoQuarantineResult).get ⟨j, hj⟩)) ∧
    extract_failed_batch demoAllSuccessResult demoBatch = none :=
  ⟨((c2_extract_batches demoBatch demoQuarantineResult (by decide) (by decide)
      (by decide) (by decide)).1).2 (by decide),
   ((c2_extract_batches demoBatch demoAllSuccessResult (by decide) (by decide)
      (by decide) (by decide)).1).1 rfl⟩

/-- C7: for every batch and every `TransmissionResult` that describes it
and satisfies the data-model consistency invariants, the row counts of
`extract_failed_batch` and `extract_successful_batch` sum to `total_rows`
whenever both are present; each of the two is absent exactly when its
index list is empty; and for a non-empty batch at most one of the two can
be absent. -/
theorem c7_extract_counts_sum (b : Batch) (r : TransmissionResult)
    (hf : (failedRowsList r).length = r.failed_count)
    (hs : (successfulRowsList r).length = r.successful_count)
    (ht : r.total_rows = r.successful_count + r.failed_count) :
    (∀ fb sb, extract_failed_batch r b = some fb →
      extract_successful_batch r b = some sb →
      fb.num_rows + sb.num_rows = r.total_rows) ∧
    (extract_failed_batch r b = none ↔ get_failed_row_indices r = []) ∧
    (extract_successful_batch r b = none ↔
      get_successful_row_indices r = []) ∧
    (r.total_rows = b.num_rows → 0 < b.num_rows →
      ¬(extract_failed_batch r b = none ∧
        extract_successful_batch r b = none)) := by
  have hnone : ∀ idxs : List Nat,
      extractRows b idxs = none ↔ idxs = [] := by
    intro idxs
    constructor
    · intro h
      by_cases he : idxs.isEmpty
      · exact List.isEmpty_iff.mp he
      · simp [extractRows, he] at h
    · intro h
      simp [extractRows, h]
  have hrows : ∀ idxs : List Nat, ∀ b', extractRows b idxs = some b' →
      b'.num_rows = idxs.length := by
    intro idxs b' h
    by_cases he : idxs.isEmpty
    · simp [extractRows, he] at h
    · simp only [extractRows, he, Bool.false_eq_true, if_false,
        Option.some.injEq] at h
      rw [← h]
  refine ⟨?_, hnone _, hnone _, ?_⟩
  · intro fb sb hfb hsb
    rw [hrows _ _ hfb, hrows _ _ hsb]
    rw [show (get_failed_row_indices r).length = r.failed_count from by
      rw [get_failed_row_indices, List.length_map, hf]]
    rw [show (get_successful_row_indices r).length = r.successful_count from by
      rw [get_successful_row_indices, hs]]
    omega
  · intro htb hpos ⟨h1, h2⟩
    have e1 : get_failed_row_indices r = [] := (hnone _).mp h1
    have e2 : get_successful_row_indices r = [] := (hnone _).mp h2
    have l1 : r.failed_count = 0 := by
      have := congrArg List.length e1
      rw [get_failed_row_indices, List.length_map, hf] at this
      simpa using this
    have l2 : r.successful_count = 0 := by
      have := congrArg List.length e2
      rw [get_successful_row_indices, hs] at this
      simpa using this
    omega

/-- C7 witness: the count-sum and absence rules evaluated on the sample
ten-row batch and its quarantine result. -/
theorem c7_extract_counts_sum_witness :
    (∀ fb sb,
      extract_failed_batch demoQuarantineResult demoBatch = some fb →
      extract_successful_batch demoQuarantineResult demoBatch = some sb →
      fb.num_rows + sb.num_rows = demoQuarantineResult.total_rows) ∧
    ¬(extract_failed_batch demoQuarantineResult demoBatch = none ∧
      extract_successful_batch demoQuarantineResult demoBatch = none) :=
  ⟨(c7_extract_counts_sum demoBatch demoQuarantineResult rfl rfl rfl).1,
   (c7_extract_counts_sum demoBatch demoQuarantineResult rfl rfl rfl).2.2.2
     rfl (by decide)⟩

/-- C8: for every `TransmissionResult`, `is_partial_success` returns true
if and only if `successful_count > 0` and `failed_count > 0`. -/
theorem c8_is_partial_success_iff (r : TransmissionResult) :
    is_partial_success r = true ↔
      0 < r.successful_count ∧ 0 < r.failed_count := by
  simp [is_partial_success]

/-- C3: for every `TransmissionResult`, `group_errors_by_type` partitions
the failed rows by the leading classification tag of each error string
(with unrecognized messages under the catch-all key), mapping each present
tag to the list of matching row indices in original order and mapping
absent tags to nothing; it is empty when there are no failed rows; and on
the specification's five-row example it yields `ConversionError -> [0,2,4]`,
`TransmissionError -> [1]`, `ConnectionError -> [3]`. -/
theorem c3_group_errors_partition (r : TransmissionResult) (tag : String) :
    (List.lookup tag (group_errors_by_type r) =
      if tag ∈ (failedRowsList r).map (fun fr => classifyTag fr.2) then
        some (((failedRowsList r).filter
          (fun fr => classifyTag fr.2 == tag)).map Prod.fst)
      else none) ∧
    (failedRowsList r = [] → group_errors_by_type r = []) ∧
    group_errors_by_type demoFailedResult =
      [("ConversionError", [0, 2, 4]), ("TransmissionError", [1]),
       ("ConnectionError", [3])] := by
  refine ⟨?_, ?_, by decide⟩
  · rw [show group_errors_by_type r =
      (dedupFirstAux [] ((failedRowsList r).map (fun fr => classifyTag fr.2))).map
        (fun t => (t, ((failedRowsList r).filter
          (fun fr => classifyTag fr.2 == t)).map Prod.fst)) from rfl]
    rw [lookup_map_self]
    by_cases h : tag ∈ (failedRowsList r).map (fun fr => classifyTag fr.2)
    · rw [if_pos ((mem_dedupFirstAux _ _ _).mpr ⟨h, by simp⟩), if_pos h]
    · rw [if_neg (fun hc => h ((mem_dedupFirstAux _ _ _).mp hc).1), if_neg h]
  · intro h
    simp [group_errors_by_type, h, dedupFirstAux]

/-- C3 witness: the partition property evaluated on the sample failed
result and the emptiness rule evaluated on an all-successful result. -/
theorem c3_group_errors_partition_witness :
    (List.lookup "TransmissionError" (group_errors_by_type demoFailedResult) =
      if "TransmissionError" ∈
          (failedRowsList demoFailedResult).map (fun fr => classifyTag fr.2) then
        some (((failedRowsList demoFailedResult).filter
          (fun fr => classifyTag fr.2 == "TransmissionError")).map Prod.fst)
      else none) ∧
    group_errors_by_type demoAllSuccessResult = [] :=
  ⟨(c3_group_errors_partition demoFailedResult "TransmissionError").1,
   (c3_group_errors_partition demoAllSuccessResult "x").2.1 rfl⟩

/-- C9: for every `TransmissionResult`, `get_error_messages` returns the
ordered list of the full formatted message of every failed row, one per
failed row in original row order, and the empty list when there are no
failed rows. -/
theorem c9_error_messages (r : TransmissionResult) :
    (get_error_messages r).length = (failedRowsList r).length ∧
    (∀ j, j < (failedRowsList r).length →
      (get_error_messages r).getD j "" =
        formatRowError ((failedRowsList r).getD j (0, "")).2) ∧
    (failedRowsList r = [] → get_error_messages r = []) := by
  refine ⟨by simp [get_error_messages], ?_, ?_⟩
  · intro j hj
    simp [get_error_messages, List.getD_eq_getElem?_getD,
      List.getElem?_map, List.getElem?_eq_getElem hj]
  · intro h
    simp [get_error_messages, h]

/-- C9 witness: the per-row formatted-message property evaluated on the
sample failed result. -/
theorem c9_error_messages_witness :
    (get_error_messages demoFailedResult).length =
      (failedRowsList demoFailedResult).length ∧
    (get_error_messages demoFailedResult).getD 1 "" =
      formatRowError ((failedRowsList demoFailedResult).getD 1 (0, "")).2 := by
  exact ⟨(c9_error_messages demoFailedResult).1,
    (c9_error_messages demoFailedResult).2.1 1 (by decide)⟩

/-- C10: the `TransmissionResult` constructor is total over its field
values — it stores any combination of success flag, row lists and counts,
including combinations violating the documented invariants, such as
`failed_count = 6` with no `failed_rows` list, or counts inconsistent with
`total_rows`. -/
theorem c10_constructor_total :
    (∀ (s : Bool) (m : Option String) (fr : Option (List (Nat × String)))
        (sr : Option (List Nat)) (t sc fc : Nat),
        (TransmissionResult.mk s m fr sr t sc fc).success = s ∧
        (TransmissionResult.mk s m fr sr t sc fc).message = m ∧
        (TransmissionResult.mk s m fr sr t sc fc).failed_rows = fr ∧
        (TransmissionResult.mk s m fr sr t sc fc).successful_rows = sr ∧
        (TransmissionResult.mk s m fr sr t sc fc).total_rows = t ∧
        (TransmissionResult.mk s m fr sr t sc fc).successful_count = sc ∧
        (TransmissionResult.mk s m fr sr t sc fc).failed_count = fc) ∧
    (∃ r : TransmissionResult,
        r.failed_rows = none ∧ r.failed_count = 6 ∧
        (failedRowsList r).length ≠ r.failed_count) ∧
    (∃ r : TransmissionResult,
        r.total_rows ≠ r.successful_count + r.failed_count) := by
  refine ⟨fun s m fr sr t sc fc => ⟨rfl, rfl, rfl, rfl, rfl, rfl, rfl⟩, ?_, ?_⟩
  · exact ⟨TransmissionResult.mk true (some "Test") none
      (some [0, 1, 2, 5, 10]) 11 5 6, rfl, rfl, by decide⟩
  · exact ⟨TransmissionResult.mk true none none none 5 1 1, by decide⟩

end Zerobus
